import Mathlib

/-!
Shallow embedding of the trade lifecycle core of the BigBoyFlippa repository:
`src/services/trading/tradeMonitor.js`, `src/services/trading/tradeExecutor.js`
and `src/services/risk/riskManager.js` (the second revision contained in that
file, the one whose `validateTrade` returns an `{isValid, reasons}` record, as
used by the executor). JavaScript numbers are modelled as exact rationals
(`ℚ`), timestamps in milliseconds as integers (`ℤ`), and opaque string
identifiers (token mint addresses, symbols, strategy names, transaction ids,
logged error messages) as natural-number ids. A JavaScript `Map` is modelled
as an association list with `has`/`get`/`set`/`delete` counterparts. In every
result type below, `Except.error` means a JavaScript exception thrown out of
the modelled function to its caller, while an `ok`/returned constructor means
an ordinary return value.
-/

abbrev Token := Nat

/-- Map.has for an association list keyed by token ids. -/
def mapHas {α : Type} (m : List (Token × α)) (k : Token) : Bool :=
  m.any (fun e => e.1 == k)

/-- Map.get: first binding wins (keys stay unique under `mapSet`/`mapDelete`). -/
def mapGet {α : Type} (m : List (Token × α)) (k : Token) : Option α :=
  match m.find? (fun e => e.1 == k) with
  | some e => some e.2
  | none => none

/-- Map.set: overwrite the binding if present, else append (JS insertion order). -/
def mapSet {α : Type} (m : List (Token × α)) (k : Token) (v : α) : List (Token × α) :=
  if mapHas m k then m.map (fun e => if e.1 == k then (k, v) else e)
  else m ++ [(k, v)]

/-- Map.delete: removes every binding of the key. -/
def mapDelete {α : Type} (m : List (Token × α)) (k : Token) : List (Token × α) :=
  m.filter (fun e => e.1 != k)

/-!
Retry combinator, from `tradeExecutor.js` lines 496–524
(`_getMarketMetricsWithRetry` and `_executeOrderWithRetry` share this shape):
a `for (let i = 0; i < maxRetries; i++)` loop whose body tries the operation;
a truthy result returns immediately; a thrown error is recorded as
`lastError`, logged with `logger.warn`, and followed by a sleep of
`1000 * (i + 1)` milliseconds; a falsy non-thrown result just falls through to
the next iteration. After the loop, `lastError` is thrown if one was
recorded, otherwise a fresh generic error is thrown (modelled as
`Except.error none`).
-/

/-- Outcome of one attempt of the retried operation: a truthy result, a falsy
result without an exception, or a thrown error (identified by a message id). -/
inductive AttemptOutcome (α : Type) where
  | success (a : α)
  | nullResult
  | failure (e : Nat)

/-- Observable behaviour of one run of the retry loop: the value returned or
the error thrown (`Except.error none` is the generic after-loop error), the
sleep durations performed in order, and the warning messages logged in order. -/
structure RetryResult (α : Type) where
  outcome : Except (Option Nat) α
  delays : List Nat
  logged : List Nat
deriving Repr

/-- Sleep duration after the failed attempt with loop index `i`, from the
source line `await new Promise(resolve => setTimeout(resolve, 1000 * (i + 1)))`
(the adjacent source comment reads "Exponential backoff"). -/
def retryDelayMs (i : Nat) : Nat := 1000 * (i + 1)

/-- Retry loop body, structurally recursive on the remaining iteration count.
`i` is the loop index of the next attempt. -/
def runRetryGo {α : Type} (attempts : Nat → AttemptOutcome α) (i remaining : Nat)
    (lastError : Option Nat) (delays logged : List Nat) : RetryResult α :=
  match remaining with
  | 0 => ⟨Except.error lastError, delays.reverse, logged.reverse⟩
  | r + 1 =>
    match attempts i with
    | AttemptOutcome.success a => ⟨Except.ok a, delays.reverse, logged.reverse⟩
    | AttemptOutcome.nullResult => runRetryGo attempts (i + 1) r lastError delays logged
    | AttemptOutcome.failure e =>
      runRetryGo attempts (i + 1) r (some e) (retryDelayMs i :: delays) (e :: logged)

/-- Whole retry combinator: up to `maxRetries` attempts (source default 3). -/
def runRetry {α : Type} (attempts : Nat → AttemptOutcome α) (maxRetries : Nat) : RetryResult α :=
  runRetryGo attempts 0 maxRetries none [] []

/-!
Shared market-data record types consumed by the executor and the monitor.
-/

inductive MarketCondition where
  | bullish
  | bearish
  | neutral
deriving DecidableEq, Repr

inductive VolumeTrend where
  | increasing
  | decreasing
  | stable
deriving DecidableEq, Repr

inductive TrendDir where
  | up
  | down
  | sideways
deriving DecidableEq, Repr

structure Macd where
  histogram : ℚ
deriving DecidableEq, Repr

structure TrendInfo where
  shortTerm : TrendDir
  mediumTerm : TrendDir
deriving DecidableEq, Repr

structure TechnicalIndicators where
  rsi : ℚ
  macd : Macd
  trend : TrendInfo
  volumeTrend : VolumeTrend
  volatility : ℚ
deriving DecidableEq, Repr

structure MarketAnalysis where
  condition : MarketCondition
  confidence : ℚ
deriving DecidableEq, Repr

/-- Result of `marketAnalyzer.getTokenMetrics` / `tokenMonitor.getTokenMetrics`. -/
structure TokenMetrics where
  liquidity : ℚ
  volume24h : ℚ
  priceImpact : ℚ
deriving DecidableEq, Repr

/-- Value stored in the executor's `activeTrades` map (`tradeExecutor.js`
lines 119–141): the trade-info record plus `entryTime`, `stopLoss` and
`takeProfit`. The constant `status: 'active'` field carries no information and
is omitted. -/
structure StoredTrade where
  tokenMint : Token
  tokenSymbol : Nat
  strategy : Nat
  entryPrice : ℚ
  solIn : ℚ
  buyTx : Nat
  liquidity : ℚ
  volume24h : ℚ
  entryReason : Nat
  marketCondition : MarketCondition
  confidence : ℚ
  technicalIndicators : TechnicalIndicators
  entryTime : Int
  stopLoss : ℚ
  takeProfit : ℚ
deriving DecidableEq, Repr

/-!
Trade monitor (`tradeMonitor.js`). `monitorTrade` destructures
`{tokenMint, tokenSymbol, entryPrice, solIn, entryTime}` from the trade,
updates the per-token highest price, and evaluates the five close conditions
in fixed order, returning at the first match.
-/

structure MonitorConfig where
  maxHoldTime : Int
  trailingStopPercent : ℚ
  minProfitPercent : ℚ
  maxLossPercent : ℚ
deriving DecidableEq, Repr

/-- Source defaults: MAX_HOLD_TIME_MS 300000, TRAILING_STOP_PERCENT 0.01,
MIN_PROFIT_PERCENT 0.015, MAX_LOSS_PERCENT 0.01. -/
def defaultMonitorConfig : MonitorConfig :=
  ⟨300000, 1/100, 15/1000, 1/100⟩

/-- Mutable state of the TradeMonitor singleton: the `highestPrices` and
`entryTimes` maps (the latter is only ever deleted from in the source). -/
structure MonitorState where
  highestPrices : List (Token × ℚ)
  entryTimes : List (Token × Int)
deriving DecidableEq, Repr

/-- Close reasons, standing for the source's reason strings in order:
'Maximum hold time reached', 'Trailing stop triggered',
'Profit target reached', 'Loss limit reached', 'Break-even point reached'. -/
inductive CloseReason where
  | timeExpired
  | trailingStop
  | profitTarget
  | lossLimit
  | breakEven
deriving DecidableEq, Repr

/-- Decision record returned by `monitorTrade`; `reason = none` models the
initial empty reason string of a hold decision. -/
structure MonitorDecision where
  shouldClose : Bool
  reason : Option CloseReason
  currentPrice : ℚ
  pnl : ℚ
deriving DecidableEq, Repr

/-- Lines 33–35: `if (!highestPrices.has(tokenMint) || currentPrice >
highestPrices.get(tokenMint)) highestPrices.set(tokenMint, currentPrice)`. -/
def updatedHighestPrices (m : List (Token × ℚ)) (tok : Token) (currentPrice : ℚ) :
    List (Token × ℚ) :=
  if mapHas m tok = false ∨ (mapGet m tok).getD 0 < currentPrice then
    mapSet m tok currentPrice
  else m

/-- Line 38: `pnl = (currentPrice - entryPrice) / entryPrice`. -/
def pnlOf (entryPrice currentPrice : ℚ) : ℚ :=
  (currentPrice - entryPrice) / entryPrice

/-- Line 40: `dropFromHigh = (highestPrice - currentPrice) / highestPrice`. -/
def dropFromHighOf (highestPrice currentPrice : ℚ) : ℚ :=
  (highestPrice - currentPrice) / highestPrice

/-- Line 44: `breakEvenPrice = entryPrice * (1 + gasCost / solIn)`. -/
def breakEvenPriceOf (entryPrice gasCost solIn : ℚ) : ℚ :=
  entryPrice * (1 + gasCost / solIn)

/-- Line 55: `Date.now() - entryTime > this.maxHoldTime` (strict). -/
def timeExpiredCond (cfg : MonitorConfig) (entryTime now : Int) : Bool :=
  decide (cfg.maxHoldTime < now - entryTime)

/-- Line 62: `pnl > 0 && dropFromHigh >= this.trailingStopPercent`. -/
def trailingStopCond (cfg : MonitorConfig) (entryPrice highestPrice currentPrice : ℚ) : Bool :=
  decide (0 < pnlOf entryPrice currentPrice) &&
    decide (cfg.trailingStopPercent ≤ dropFromHighOf highestPrice currentPrice)

/-- Line 69: `pnl >= this.minProfitPercent`. -/
def profitTargetCond (cfg : MonitorConfig) (entryPrice currentPrice : ℚ) : Bool :=
  decide (cfg.minProfitPercent ≤ pnlOf entryPrice currentPrice)

/-- Line 76: `pnl <= -this.maxLossPercent`. -/
def lossLimitCond (cfg : MonitorConfig) (entryPrice currentPrice : ℚ) : Bool :=
  decide (pnlOf entryPrice currentPrice ≤ -cfg.maxLossPercent)

/-- Line 83: `currentPrice >= breakEvenPrice`. -/
def breakEvenCond (entryPrice gasCost solIn currentPrice : ℚ) : Bool :=
  decide (breakEvenPriceOf entryPrice gasCost solIn ≤ currentPrice)

/-- Line 39: `highestPrice = this.highestPrices.get(tokenMint)`, read back
right after the update, hence always present; the `getD 0` default is never
taken. -/
def monitorHighest (m : List (Token × ℚ)) (tok : Token) (currentPrice : ℚ) : ℚ :=
  (mapGet (updatedHighestPrices m tok currentPrice) tok).getD 0

/-- Embedding of `monitorTrade` (lines 22–95) for a successfully fetched
`currentPrice` and a gas-cost estimate `gasCost` (the `_estimateGasCost`
collaborator's result, 0.001 on its own failure). The highest-price map is
updated first; the five close checks then run in source order, the first
match returning. -/
def monitorTrade (cfg : MonitorConfig) (ms : MonitorState) (trade : StoredTrade)
    (currentPrice gasCost : ℚ) (now : Int) : MonitorDecision × MonitorState :=
  let ms' : MonitorState :=
    ⟨updatedHighestPrices ms.highestPrices trade.tokenMint currentPrice, ms.entryTimes⟩
  let highestPrice := monitorHighest ms.highestPrices trade.tokenMint currentPrice
  let pnl := pnlOf trade.entryPrice currentPrice
  let close : CloseReason → MonitorDecision := fun r => ⟨true, some r, currentPrice, pnl⟩
  if timeExpiredCond cfg trade.entryTime now then
    (close CloseReason.timeExpired, ms')
  else if trailingStopCond cfg trade.entryPrice highestPrice currentPrice then
    (close CloseReason.trailingStop, ms')
  else if profitTargetCond cfg trade.entryPrice currentPrice then
    (close CloseReason.profitTarget, ms')
  else if lossLimitCond cfg trade.entryPrice currentPrice then
    (close CloseReason.lossLimit, ms')
  else if breakEvenCond trade.entryPrice gasCost trade.solIn currentPrice then
    (close CloseReason.breakEven, ms')
  else
    (⟨false, none, currentPrice, pnl⟩, ms')

/-- Embedding of `cleanupTrade` (lines 123–126); its source doc comment reads
"Cleans up monitoring data for a closed trade". -/
def cleanupTrade (ms : MonitorState) (tok : Token) : MonitorState :=
  ⟨mapDelete ms.highestPrices tok, mapDelete ms.entryTimes tok⟩

/-!
Risk manager (`riskManager.js`, second revision: the `RiskManager` whose
`validateTrade` collects a reason list and whose daily stats carry a
`lastReset` timestamp).
-/

structure RiskConfig where
  maxPositionSize : ℚ
  maxRiskPerTrade : ℚ
  maxDailyLoss : ℚ
deriving DecidableEq, Repr

/-- Source defaults: MAX_POSITION_SIZE 1.0 SOL, MAX_RISK_PER_TRADE 0.1,
MAX_DAILY_LOSS 0.2. -/
def defaultRiskConfig : RiskConfig :=
  ⟨1, 1/10, 1/5⟩

/-- Value stored in the risk manager's `activeTrades` map. -/
structure RiskPosition where
  entryPrice : ℚ
  amount : ℚ
  timestamp : Int
deriving DecidableEq, Repr

structure DailyStats where
  totalTrades : Nat
  winningTrades : Nat
  totalPnL : ℚ
  lastReset : Int
deriving DecidableEq, Repr

structure RiskState where
  activeTrades : List (Token × RiskPosition)
  dailyStats : DailyStats
deriving DecidableEq, Repr

/-- Fresh risk state as built by the constructor at process start `t0`. -/
def initialRiskState (t0 : Int) : RiskState :=
  ⟨[], ⟨0, 0, 0, t0⟩⟩

/-- Rejection reasons pushed by `validateTrade`, standing for its reason
strings in source order. -/
inductive RiskReason where
  | insufficientBalance
  | exceedsMaxPositionSize
  | alreadyActive
  | dailyLossLimit
  | priceImpactTooHigh
deriving DecidableEq, Repr

structure RiskValidation where
  isValid : Bool
  reasons : List RiskReason
deriving DecidableEq, Repr

/-- Embedding of `validateTrade` (lines 199–240): the five checks run
independently, each appending its reason; `isValid` iff no reason was
collected. `hasBalance` is the awaited result of
`walletManager.hasSufficientBalance(amount)`. Note that no argument of this
function is a timestamp: the daily-loss check reads `dailyStats.totalPnL`
as is and never triggers the lazy daily reset. -/
def validateTrade (cfg : RiskConfig) (st : RiskState) (hasBalance : Bool)
    (tok : Token) (amount : ℚ) (metrics : TokenMetrics) : RiskValidation :=
  let r1 : List RiskReason := if hasBalance then [] else [RiskReason.insufficientBalance]
  let r2 : List RiskReason :=
    if cfg.maxPositionSize < amount then [RiskReason.exceedsMaxPositionSize] else []
  let r3 : List RiskReason := if mapHas st.activeTrades tok then [RiskReason.alreadyActive] else []
  let r4 : List RiskReason :=
    if st.dailyStats.totalPnL < -cfg.maxDailyLoss then [RiskReason.dailyLossLimit] else []
  let r5 : List RiskReason :=
    if (2 : ℚ) < metrics.priceImpact then [RiskReason.priceImpactTooHigh] else []
  let reasons := r1 ++ r2 ++ r3 ++ r4 ++ r5
  ⟨reasons.isEmpty, reasons⟩

/-- Embedding of `updatePosition` (lines 242–248). -/
def updatePosition (st : RiskState) (tok : Token) (entryPrice amount : ℚ) (now : Int) : RiskState :=
  ⟨mapSet st.activeTrades tok ⟨entryPrice, amount, now⟩, st.dailyStats⟩

/-- Embedding of `updateDailyStats` (lines 256–272): lazily resets the whole
stats record — `totalPnL` included — when strictly more than 24h have elapsed
since `lastReset`, then counts the trade. This is the only place the rolling
sum is ever reset. -/
def updateDailyStats (ds : DailyStats) (isWin : Bool) (now : Int) : DailyStats :=
  let ds' : DailyStats :=
    if (24 * 60 * 60 * 1000 : Int) < now - ds.lastReset then ⟨0, 0, 0, now⟩ else ds
  ⟨ds'.totalTrades + 1,
   if isWin then ds'.winningTrades + 1 else ds'.winningTrades,
   ds'.totalPnL, ds'.lastReset⟩

/-- Embedding of `closePosition` (lines 250–254): deletes the position, runs
`updateDailyStats(pnl > 0)` (which may lazily reset the sum), then folds the
realized `pnl` into `totalPnL`. -/
def closePosition (st : RiskState) (tok : Token) (pnl : ℚ) (now : Int) : RiskState :=
  let ds := updateDailyStats st.dailyStats (decide (0 < pnl)) now
  ⟨mapDelete st.activeTrades tok,
   ⟨ds.totalTrades, ds.winningTrades, ds.totalPnL + pnl, ds.lastReset⟩⟩

/-!
Trade executor (`tradeExecutor.js`).
-/

structure ExecConfig where
  maxConcurrentTrades : Nat
  minLiquidity : ℚ
  maxSlippage : ℚ
  maxHoldTime : Int
  retryAttempts : Nat
deriving DecidableEq, Repr

/-- Source defaults: MAX_CONCURRENT_TRADES 3, MIN_LIQUIDITY 100 SOL,
MAX_SLIPPAGE 0.05, MAX_HOLD_TIME_MS 300000, and the default `maxRetries = 3`
of the retry helpers. -/
def defaultExecConfig : ExecConfig :=
  ⟨3, 100, 1/20, 300000, 3⟩

/-- Executor + risk singleton states that `executeBuy`/`executeSell` touch.
The execution lock map stores `true` markers, as `executionLock.set(tokenMint,
true)` does. -/
structure ExecutorState where
  activeTrades : List (Token × StoredTrade)
  executionLock : List (Token × Bool)
  risk : RiskState
deriving DecidableEq, Repr

/-- Parameter object of `executeBuy`; a `none` field models a missing, empty
or wrongly-typed value, which `_validateInputParams` rejects, and `amount`
additionally fails validation when not strictly positive. -/
structure BuyParams where
  tokenMint : Option Token
  tokenSymbol : Option Nat
  amount : Option ℚ
  strategy : Option Nat
  entryReason : Option Nat
deriving DecidableEq, Repr

/-- Embedding of `_validateInputParams` (lines 465–494). -/
def validateInputParams (p : BuyParams) : Bool :=
  p.tokenMint.isSome && p.tokenSymbol.isSome &&
    (match p.amount with
     | some a => decide (0 < a)
     | none => false) &&
    p.strategy.isSome && p.entryReason.isSome

/-- Embedding of `_validateEntryConditions` (lines 357–376). -/
def validateEntryConditions (ma : MarketAnalysis) (ti : TechnicalIndicators) : Bool :=
  if ma.condition = MarketCondition.bearish ∧ (7/10 : ℚ) < ma.confidence then false
  else if (70 : ℚ) < ti.rsi then false
  else if ti.rsi < 30 then true
  else if ti.macd.histogram < 0 then false
  else if ti.trend.shortTerm ≠ ti.trend.mediumTerm then false
  else true

/-- Embedding of `_calculatePositionSize` (lines 378–397); `maxPosition` is
`riskManager.getMaxPositionSize(tokenMint)`, which returns the configured
max position size. -/
def calculatePositionSize (maxPosition amount : ℚ) (ma : MarketAnalysis)
    (ti : TechnicalIndicators) : ℚ :=
  let m1 := ma.confidence
  let m2 :=
    if ti.rsi < 30 then m1 * (12/10)
    else if (70 : ℚ) < ti.rsi then m1 * (8/10)
    else m1
  let m3 := if 0 < ti.macd.histogram then m2 * (11/10) else m2 * (9/10)
  min (amount * m3) maxPosition

/-- Embedding of `_calculateDynamicSlippage` (lines 399–421). -/
def calculateDynamicSlippage (maxSlippage : ℚ) (ma : MarketAnalysis)
    (ti : TechnicalIndicators) : ℚ :=
  let s1 := maxSlippage
  let s2 :=
    if ma.condition = MarketCondition.bullish ∧ (7/10 : ℚ) < ma.confidence then s1 * (12/10)
    else if ma.condition = MarketCondition.bearish then s1 * (8/10)
    else s1
  let s3 :=
    if ti.volumeTrend = VolumeTrend.increasing then s2 * (11/10)
    else if ti.volumeTrend = VolumeTrend.decreasing then s2 * (9/10)
    else s2
  min s3 maxSlippage

/-- Embedding of `_calculateStopLoss` (lines 423–442). -/
def calculateStopLoss (entryPrice : ℚ) (ma : MarketAnalysis) (ti : TechnicalIndicators) : ℚ :=
  let p1 : ℚ := 1/100
  let p2 :=
    if ma.condition = MarketCondition.bullish ∧ (7/10 : ℚ) < ma.confidence then p1 * (12/10)
    else if ma.condition = MarketCondition.bearish then p1 * (8/10)
    else p1
  let p3 := p2 * (1 + ti.volatility)
  entryPrice * (1 - p3)

/-- Embedding of `_calculateTakeProfit` (lines 444–463). -/
def calculateTakeProfit (entryPrice : ℚ) (ma : MarketAnalysis) (ti : TechnicalIndicators) : ℚ :=
  let p1 : ℚ := 2/100
  let p2 :=
    if ma.condition = MarketCondition.bullish ∧ (7/10 : ℚ) < ma.confidence then p1 * (13/10)
    else if ma.condition = MarketCondition.bearish then p1 * (7/10)
    else p1
  let p3 := p2 * (1 + ti.volatility)
  entryPrice * (1 + p3)

/-- Result object of `_executeOrder` (lines 266–302): `{price, amount, txId}`.
For the buy path, `executeBuy` additionally checks `buyResult.price` and
`buyResult.txId` for JS-truthiness; a missing/undefined field is modelled as
`none`. -/
structure OrderResult where
  price : Option ℚ
  amount : ℚ
  txId : Option Nat
deriving DecidableEq, Repr

/-- Taxonomy of the exceptions `executeBuy` can throw, one constructor per
`throw` site, carrying the retry error where one propagates. -/
inductive BuyError where
  | validationError
  | lockConflict
  | duplicatePosition
  | capacityExceeded
  | snapshotUnavailable (e : Option Nat)
  | insufficientLiquidity
  | riskRejection (reasons : List RiskReason)
  | unfavorableConditions
  | insufficientBalance
  | executionFailed (e : Option Nat)
  | invalidExecutionResult
deriving DecidableEq, Repr

/-- Trade-info record returned by a successful `executeBuy` (lines 119–132). -/
structure TradeInfo where
  tokenMint : Token
  tokenSymbol : Nat
  strategy : Nat
  entryPrice : ℚ
  solIn : ℚ
  buyTx : Nat
  liquidity : ℚ
  volume24h : ℚ
  entryReason : Nat
  marketCondition : MarketCondition
  confidence : ℚ
  technicalIndicators : TechnicalIndicators
deriving DecidableEq, Repr

/-- Environment of one `executeBuy` call: results the external collaborators
would deliver. `metricsAttempts` and `orderAttempts` feed the retry
combinator; `marketAnalysis`/`technicalIndicators` are the awaited analyzer
results (their own failure would also propagate as a thrown error, a path no
claim exercises); `hasSufficientBalance` is the wallet answer consumed by the
risk validation; `walletBalance` the balance read before execution. -/
structure BuyEnv where
  metricsAttempts : Nat → AttemptOutcome TokenMetrics
  marketAnalysis : MarketAnalysis
  technicalIndicators : TechnicalIndicators
  hasSufficientBalance : Bool
  walletBalance : ℚ
  orderAttempts : Nat → AttemptOutcome OrderResult
  now : Int

/-- Body of `executeBuy`'s `try` block (lines 49–161), entered with the lock
already set. Every `Except.error` models a `throw` that the `catch` block
(line 162–165) logs, alerts on, and rethrows unchanged. State is returned
alongside so that mutations before a throw persist (none of the throw sites
follows a state mutation). -/
def executeBuyTry (cfg : ExecConfig) (rcfg : RiskConfig) (env : BuyEnv) (st : ExecutorState)
    (tok : Token) (sym : Nat) (amount : ℚ) (strat reason : Nat) :
    Except BuyError TradeInfo × ExecutorState :=
  if mapHas st.activeTrades tok then (Except.error BuyError.duplicatePosition, st)
  else if cfg.maxConcurrentTrades ≤ st.activeTrades.length then
    (Except.error BuyError.capacityExceeded, st)
  else
    match (runRetry env.metricsAttempts cfg.retryAttempts).outcome with
    | Except.error e => (Except.error (BuyError.snapshotUnavailable e), st)
    | Except.ok metrics =>
      if metrics.liquidity < cfg.minLiquidity then
        (Except.error BuyError.insufficientLiquidity, st)
      else
        let rv := validateTrade rcfg st.risk env.hasSufficientBalance tok amount metrics
        if rv.isValid = false then (Except.error (BuyError.riskRejection rv.reasons), st)
        else if validateEntryConditions env.marketAnalysis env.technicalIndicators = false then
          (Except.error BuyError.unfavorableConditions, st)
        else
          let positionSize :=
            calculatePositionSize rcfg.maxPositionSize amount env.marketAnalysis
              env.technicalIndicators
          if env.walletBalance < positionSize then
            (Except.error BuyError.insufficientBalance, st)
          else
            match (runRetry env.orderAttempts cfg.retryAttempts).outcome with
            | Except.error e => (Except.error (BuyError.executionFailed e), st)
            | Except.ok buyResult =>
              match buyResult.price, buyResult.txId with
              | some price, some tx =>
                let info : TradeInfo :=
                  ⟨tok, sym, strat, price, positionSize, tx, metrics.liquidity,
                   metrics.volume24h, reason, env.marketAnalysis.condition,
                   env.marketAnalysis.confidence, env.technicalIndicators⟩
                let stored : StoredTrade :=
                  ⟨tok, sym, strat, price, positionSize, tx, metrics.liquidity,
                   metrics.volume24h, reason, env.marketAnalysis.condition,
                   env.marketAnalysis.confidence, env.technicalIndicators, env.now,
                   calculateStopLoss price env.marketAnalysis env.technicalIndicators,
                   calculateTakeProfit price env.marketAnalysis env.technicalIndicators⟩
                (Except.ok info,
                 ⟨mapSet st.activeTrades tok stored, st.executionLock,
                  updatePosition st.risk tok price positionSize env.now⟩)
              | _, _ => (Except.error BuyError.invalidExecutionResult, st)

/-- Embedding of `executeBuy` (lines 36–169). The input validation (line 40)
and the lock check (line 45) throw BEFORE the `try` block is entered, so on
those paths neither the `finally` (line 167) nor any state change runs. Once
the lock is set, the `try` body runs and the `finally` deletes the caller's
lock entry on every path, the result (return or rethrow) passing through
unchanged. -/
def executeBuy (cfg : ExecConfig) (rcfg : RiskConfig) (env : BuyEnv)
    (st : ExecutorState) (p : BuyParams) : Except BuyError TradeInfo × ExecutorState :=
  match p.tokenMint, p.tokenSymbol, p.amount, p.strategy, p.entryReason with
  | some tok, some sym, some amount, some strat, some reason =>
    if validateInputParams p = false then (Except.error BuyError.validationError, st)
    else if mapHas st.executionLock tok then (Except.error BuyError.lockConflict, st)
    else
      let st0 : ExecutorState :=
        ⟨st.activeTrades, mapSet st.executionLock tok true, st.risk⟩
      let out := executeBuyTry cfg rcfg env st0 tok sym amount strat reason
      (out.1, ⟨out.2.activeTrades, mapDelete out.2.executionLock tok, out.2.risk⟩)
  | _, _, _, _, _ => (Except.error BuyError.validationError, st)

/-- Taxonomy of the exceptions thrown inside `executeSell`'s `try` block, one
constructor per throw site (all are caught by its own `catch`). -/
inductive SellError where
  | noActiveTrade
  | metricsUnavailable
  | swapFailed (e : Nat)
  | persistenceError (e : Nat)
deriving DecidableEq, Repr

/-- Completed-trade record built at lines 212–221: the stored trade spread
together with the exit leg. -/
structure CompleteTrade where
  base : StoredTrade
  exitPrice : Option ℚ
  solOut : ℚ
  pnl : ℚ
  pnlPercent : ℚ
  sellTx : Option Nat
  exitReason : Option CloseReason
  exitTime : Int
deriving DecidableEq, Repr

/-- Environment of one `executeSell` call: `metrics` is the awaited
`tokenMonitor.getTokenMetrics` result (`none` = falsy), `order` the outcome of
the non-retried `_executeOrder` sell (error = thrown), `saveResult` the
outcome of `tradeRepository.saveTrade` (error = thrown persistence failure). -/
structure SellEnv where
  metrics : Option TokenMetrics
  marketCondition : MarketAnalysis
  order : Except Nat OrderResult
  saveResult : Except Nat Unit
  now : Int

/-- Body of `executeSell`'s `try` block (lines 180–250). The state mutations
(risk-manager close and active-trade removal, lines 227–234) happen only
AFTER the repository save succeeded; every earlier throw leaves the state
untouched. -/
def executeSellTry (env : SellEnv) (st : ExecutorState) (tok : Token)
    (exitReason : Option CloseReason) : Except SellError (CompleteTrade × ExecutorState) :=
  match mapGet st.activeTrades tok with
  | none => Except.error SellError.noActiveTrade
  | some activeTrade =>
    match env.metrics with
    | none => Except.error SellError.metricsUnavailable
    | some _ =>
      match env.order with
      | Except.error e => Except.error (SellError.swapFailed e)
      | Except.ok sellResult =>
        let pnl := sellResult.amount - activeTrade.solIn
        let pnlPercent := pnl / activeTrade.solIn * 100
        let complete : CompleteTrade :=
          ⟨activeTrade, sellResult.price, sellResult.amount, pnl, pnlPercent,
           sellResult.txId, exitReason, env.now⟩
        match env.saveResult with
        | Except.error e => Except.error (SellError.persistenceError e)
        | Except.ok _ =>
          Except.ok (complete,
            ⟨mapDelete st.activeTrades tok, st.executionLock,
             closePosition st.risk tok pnl env.now⟩)

/-- Value RETURNED by `executeSell`: `{success: true, tradeInfo}` or
`{success: false, error}`. -/
inductive SellReturn where
  | success (t : CompleteTrade)
  | failure (e : SellError)
deriving DecidableEq, Repr

/-- Embedding of `executeSell` (lines 179–260): the whole body sits in a
`try` whose `catch` logs, alerts, and RETURNS `{success: false}` — no
exception ever escapes. On the caught paths the state is the one at the throw
point, which is always the entry state (no mutation precedes a throw site). -/
def executeSell (env : SellEnv) (st : ExecutorState) (tok : Token)
    (exitReason : Option CloseReason) : SellReturn × ExecutorState :=
  match executeSellTry env st tok exitReason with
  | Except.ok (t, st') => (SellReturn.success t, st')
  | Except.error e => (SellReturn.failure e, st)

/-!
Monitoring tick `_monitorTrades` (lines 335–355): iterates over the active
trades, calls the monitor, and on a close decision calls `executeSell` and
then — unconditionally, whatever the returned success flag —
`tradeMonitor.cleanupTrade`. A throw inside an iteration (price fetch
failure) is caught by the per-iteration `catch` and the loop continues.
-/

/-- Combined executor + monitor singleton state. -/
structure SystemState where
  exec : ExecutorState
  monitor : MonitorState
deriving DecidableEq, Repr

/-- Per-tick external world: current price per token (`none` makes
`monitorTrade` throw, which the loop catches and skips), gas estimate per
token, and the sell-leg environment per token. -/
structure TickEnv where
  price : Token → Option ℚ
  gasCost : Token → ℚ
  sellEnv : Token → SellEnv
  now : Int

/-- One iteration of the `for (const [tokenMint, trade] of activeTrades)`
loop. -/
def monitorTickOne (cfg : MonitorConfig) (env : TickEnv) (s : SystemState)
    (entry : Token × StoredTrade) : SystemState :=
  match env.price entry.1 with
  | none => s
  | some currentPrice =>
    let md := monitorTrade cfg s.monitor entry.2 currentPrice (env.gasCost entry.1) env.now
    let s1 : SystemState := ⟨s.exec, md.2⟩
    if md.1.shouldClose then
      let sr := executeSell (env.sellEnv entry.1) s1.exec entry.1 md.1.reason
      ⟨sr.2, cleanupTrade s1.monitor entry.1⟩
    else s1

/-- Embedding of `_monitorTrades`: folds the loop body over the entries
present when the tick starts (iterations only ever delete their own key, so
live `Map` iteration coincides with iterating the initial entry list). -/
def monitorTick (cfg : MonitorConfig) (env : TickEnv) (s : SystemState) : SystemState :=
  s.exec.activeTrades.foldl (monitorTickOne cfg env) s

/-!
Interleaving model for two concurrent `executeBuy` calls on the SAME token
from a clean start. In the single-threaded JS runtime a call runs atomically
from its entry to its first `await`: the input validation, the lock check,
`executionLock.set(tokenMint, true)`, the duplicate-position check and the
capacity check (lines 40–60) form one atomic segment; the rest of the call
(snapshot retry, risk checks, swap, bookkeeping, and the `finally` releasing
the lock) is a second stage during which the call holds the lock. All shared
writes of that second stage happen while the lock is held, so for two calls
on one token it is collapsed into a single resolution step; the windows this
collapse removes are ones in which the other call would still have observed
the lock as held, which cannot change its outcome. The capacity check never
binds here: only this one token is ever traded, so `activeTrades.size ≤ 1 <
maxConcurrentTrades`. State is projected onto the one token: whether its lock
entry exists and whether it has an active trade. -/

structure MiniState where
  lockHeld : Bool
  activeHas : Bool
deriving DecidableEq, Repr

/-- How one of the two competing calls can end up. -/
inductive MiniOutcome where
  | success
  | lockConflict
  | duplicate
  | externalFailure
deriving DecidableEq, Repr

/-- Progress of one call: not yet started, past the atomic entry segment with
the lock held (suspended on external I/O), or completed. -/
inductive BuyPhase where
  | notStarted
  | inFlight
  | done (r : MiniOutcome)
deriving DecidableEq, Repr

/-- One atomic step of one call. `envOk` says whether the external calls of
the in-flight stage all succeed. From `notStarted`: a held lock fails the
call fast with the lock-conflict throw of line 46 (before the `try`: no state
is touched); an existing active trade resolves to the duplicate throw of
line 54 (the transiently-set lock entry is removed again by the `finally`);
otherwise the call sets its lock entry and suspends. From `inFlight`: the
call resolves, storing the active trade on success, and in every case the
`finally` removes its lock entry. -/
def buyCallStep (envOk : Bool) (s : MiniState) (ph : BuyPhase) : MiniState × BuyPhase :=
  match ph with
  | BuyPhase.notStarted =>
    if s.lockHeld then (s, BuyPhase.done MiniOutcome.lockConflict)
    else if s.activeHas then (s, BuyPhase.done MiniOutcome.duplicate)
    else (⟨true, s.activeHas⟩, BuyPhase.inFlight)
  | BuyPhase.inFlight =>
    if envOk then (⟨false, true⟩, BuyPhase.done MiniOutcome.success)
    else (⟨false, s.activeHas⟩, BuyPhase.done MiniOutcome.externalFailure)
  | BuyPhase.done r => (s, BuyPhase.done r)

/-- Shared state plus the progress of the two calls. -/
structure TwoCallConfig where
  s : MiniState
  phA : BuyPhase
  phB : BuyPhase
deriving DecidableEq, Repr

/-- Scheduler step: `false` advances call A, `true` advances call B. -/
def twoCallStep (envOk : Bool) (c : TwoCallConfig) (b : Bool) : TwoCallConfig :=
  match b with
  | false =>
    let r := buyCallStep envOk c.s c.phA
    ⟨r.1, r.2, c.phB⟩
  | true =>
    let r := buyCallStep envOk c.s c.phB
    ⟨r.1, c.phA, r.2⟩

/-- Run a whole schedule (an arbitrary interleaving of the two calls). -/
def runSchedule (envOk : Bool) (sched : List Bool) (c : TwoCallConfig) : TwoCallConfig :=
  sched.foldl (twoCallStep envOk) c

/-- Clean start: no lock entry, no active trade, neither call started. -/
def initTwoCall : TwoCallConfig :=
  ⟨⟨false, false⟩, BuyPhase.notStarted, BuyPhase.notStarted⟩

/-- All configurations reachable from `initTwoCall` when the externals
succeed. -/
def reachableTwoCall : List TwoCallConfig :=
  [⟨⟨false, false⟩, BuyPhase.notStarted, BuyPhase.notStarted⟩,
   ⟨⟨true, false⟩, BuyPhase.inFlight, BuyPhase.notStarted⟩,
   ⟨⟨true, false⟩, BuyPhase.notStarted, BuyPhase.inFlight⟩,
   ⟨⟨false, true⟩, BuyPhase.done MiniOutcome.success, BuyPhase.notStarted⟩,
   ⟨⟨false, true⟩, BuyPhase.notStarted, BuyPhase.done MiniOutcome.success⟩,
   ⟨⟨true, false⟩, BuyPhase.inFlight, BuyPhase.done MiniOutcome.lockConflict⟩,
   ⟨⟨true, false⟩, BuyPhase.done MiniOutcome.lockConflict, BuyPhase.inFlight⟩,
   ⟨⟨false, true⟩, BuyPhase.done MiniOutcome.success, BuyPhase.done MiniOutcome.duplicate⟩,
   ⟨⟨false, true⟩, BuyPhase.done MiniOutcome.duplicate, BuyPhase.done MiniOutcome.success⟩,
   ⟨⟨false, true⟩, BuyPhase.done MiniOutcome.success, BuyPhase.done MiniOutcome.lockConflict⟩,
   ⟨⟨false, true⟩, BuyPhase.done MiniOutcome.lockConflict, BuyPhase.done MiniOutcome.success⟩]

theorem twoCallStep_preserves_reachable (c : TwoCallConfig) (b : Bool)
    (h : c ∈ reachableTwoCall) : twoCallStep true c b ∈ reachableTwoCall := by
  fin_cases h <;> cases b <;> decide

theorem runSchedule_reachable (sched : List Bool) (c : TwoCallConfig)
    (h : c ∈ reachableTwoCall) : runSchedule true sched c ∈ reachableTwoCall := by
  induction sched generalizing c with
  | nil => exact h
  | cons b t ih =>
    exact ih (twoCallStep true c b) (twoCallStep_preserves_reachable c b h)

/-!
Theorems. Claim-level theorems are grouped after the shared sample data and
helper lemmas they build on.
-/

/-- Neutral indicator sample: RSI 50, positive MACD histogram, aligned
trends, stable volume, zero volatility. -/
def sampleIndicators : TechnicalIndicators :=
  ⟨50, ⟨1⟩, ⟨TrendDir.up, TrendDir.up⟩, VolumeTrend.stable, 0⟩

/-- Sample metrics comfortably inside every limit. -/
def sampleMetrics : TokenMetrics := ⟨200, 1000, 1⟩

/-- An active trade of 1 SOL entered at price 1 at time 0 on token 7. -/
def boundaryTrade : StoredTrade :=
  ⟨7, 1, 1, 1, 1, 1, 200, 1000, 1, MarketCondition.neutral, 1/2, sampleIndicators,
   0, 99/100, 51/50⟩

/-- External operation that throws on every attempt, with the loop index as
message id. -/
def alwaysFailingAttempts : Nat → AttemptOutcome TokenMetrics :=
  fun i => AttemptOutcome.failure i

/-- External operation that throws on the first two attempts and succeeds on
the third. -/
def attemptsFailTwice : Nat → AttemptOutcome TokenMetrics :=
  fun i => if i < 2 then AttemptOutcome.failure i else AttemptOutcome.success sampleMetrics

/-- C5: evaluating the retry combinator of `_getMarketMetricsWithRetry` /
`_executeOrderWithRetry`. A run whose three attempts all fail sleeps 1000,
2000 and then 3000 ms — the linear `1000 * (i + 1)` schedule, NOT the
exponential `baseDelay * 2 ^ (attempt - 1)` schedule the claim (and the
source's own "Exponential backoff" comment) describe, which would end with a
4000 ms delay — and throws the error of the final attempt. A run failing
twice before succeeding returns the value with two logged failures after
delays of 1000 and 2000 ms (where linear and exponential still agree). -/
theorem retry_backoff_is_linear_not_exponential :
    (runRetry alwaysFailingAttempts 3).delays = [1000, 2000, 3000]
    ∧ (runRetry alwaysFailingAttempts 3).outcome = Except.error (some 2)
    ∧ (runRetry alwaysFailingAttempts 3).logged = [0, 1, 2]
    ∧ (runRetry attemptsFailTwice 3).outcome = Except.ok sampleMetrics
    ∧ (runRetry attemptsFailTwice 3).delays = [1000, 2000]
    ∧ (runRetry attemptsFailTwice 3).logged = [0, 1]
    ∧ [1000, 2000, 3000] ≠ [1000 * 2 ^ 0, 1000 * 2 ^ 1, 1000 * 2 ^ 2] :=
  ⟨rfl, rfl, rfl, rfl, rfl, rfl, by decide⟩

/-- Close conditions of `monitorTrade` paired with their reasons, in source
evaluation order (lines 54–87). -/
def conditionList (cfg : MonitorConfig) (trade : StoredTrade) (currentPrice gasCost : ℚ)
    (now : Int) (highestPrice : ℚ) : List (Bool × CloseReason) :=
  [(timeExpiredCond cfg trade.entryTime now, CloseReason.timeExpired),
   (trailingStopCond cfg trade.entryPrice highestPrice currentPrice, CloseReason.trailingStop),
   (profitTargetCond cfg trade.entryPrice currentPrice, CloseReason.profitTarget),
   (lossLimitCond cfg trade.entryPrice currentPrice, CloseReason.lossLimit),
   (breakEvenCond trade.entryPrice gasCost trade.solIn currentPrice, CloseReason.breakEven)]

/-- First-match-wins selection over a prioritized condition list. -/
def priorityFirst (l : List (Bool × CloseReason)) : Option CloseReason :=
  match l.find? (fun e => e.1) with
  | some e => some e.2
  | none => none

/-- C1: for every monitored position and snapshot, the reason `monitorTrade`
reports is the first of the five terminal conditions — TimeExpired,
TrailingStopHit, ProfitTargetHit, LossLimitHit, BreakEvenReached, in this
fixed priority order — that holds; in particular a position satisfying both
the TimeExpired and the ProfitTargetHit condition is reported as TimeExpired. -/
theorem monitor_priority_first_match (cfg : MonitorConfig) (ms : MonitorState)
    (trade : StoredTrade) (currentPrice gasCost : ℚ) (now : Int) :
    ((monitorTrade cfg ms trade currentPrice gasCost now).1.reason
        = priorityFirst (conditionList cfg trade currentPrice gasCost now
            (monitorHighest ms.highestPrices trade.tokenMint currentPrice)))
    ∧ (timeExpiredCond cfg trade.entryTime now = true →
       profitTargetCond cfg trade.entryPrice currentPrice = true →
       (monitorTrade cfg ms trade currentPrice gasCost now).1.reason
          = some CloseReason.timeExpired) := by
  constructor
  · unfold monitorTrade priorityFirst conditionList
    cases h1 : timeExpiredCond cfg trade.entryTime now <;>
      cases h2 : trailingStopCond cfg trade.entryPrice
        (monitorHighest ms.highestPrices trade.tokenMint currentPrice) currentPrice <;>
      cases h3 : profitTargetCond cfg trade.entryPrice currentPrice <;>
      cases h4 : lossLimitCond cfg trade.entryPrice currentPrice <;>
      cases h5 : breakEvenCond trade.entryPrice gasCost trade.solIn currentPrice <;>
      simp [h1, h2, h3, h4, h5, List.find?]
  · intro h1 _
    unfold monitorTrade
    simp [h1]

/-- C1 witness: at price 2 and 400000 ms after entry, both the time and the
profit condition hold and the reported reason is TimeExpired. -/
theorem monitor_priority_first_match_witness :
    (monitorTrade defaultMonitorConfig ⟨[], []⟩ boundaryTrade 2 (1/100) 400000).1.reason
      = some CloseReason.timeExpired :=
  (monitor_priority_first_match defaultMonitorConfig ⟨[], []⟩ boundaryTrade 2
    (1/100) 400000).2 (by decide)
    (by norm_num [profitTargetCond, pnlOf, defaultMonitorConfig, boundaryTrade])

/-- C8 (amended): the TimeExpired exit fires exactly when `now − entryTime`
STRICTLY exceeds `maxHoldTime` (source line 55 uses `>`), unconditionally and
regardless of profitability. -/
theorem monitor_time_expired_strict_iff (cfg : MonitorConfig) (ms : MonitorState)
    (trade : StoredTrade) (currentPrice gasCost : ℚ) (now : Int) :
    ((monitorTrade cfg ms trade currentPrice gasCost now).1.reason
        = some CloseReason.timeExpired)
      ↔ cfg.maxHoldTime < now - trade.entryTime := by
  unfold monitorTrade
  cases h1 : timeExpiredCond cfg trade.entryTime now with
  | true =>
    simp only [if_pos rfl, if_true]
    unfold timeExpiredCond at h1
    simp only [decide_eq_true_eq] at h1
    simp [h1]
  | false =>
    have h1' : ¬ cfg.maxHoldTime < now - trade.entryTime := by
      unfold timeExpiredCond at h1
      simpa using h1
    cases h2 : trailingStopCond cfg trade.entryPrice
        (monitorHighest ms.highestPrices trade.tokenMint currentPrice) currentPrice <;>
      cases h3 : profitTargetCond cfg trade.entryPrice currentPrice <;>
      cases h4 : lossLimitCond cfg trade.entryPrice currentPrice <;>
      cases h5 : breakEvenCond trade.entryPrice gasCost trade.solIn currentPrice <;>
      simp [h1, h2, h3, h4, h5, h1']

/-- C8 counterexample: a position held for exactly `maxHoldTime` (300000 ms,
with every other condition quiet) is NOT closed — `shouldClose` is false and
no reason is reported — refuting the claimed inclusive `≥` boundary. -/
theorem monitor_time_boundary_not_expired :
    (300000 : Int) - boundaryTrade.entryTime = defaultMonitorConfig.maxHoldTime
    ∧ (monitorTrade defaultMonitorConfig ⟨[], []⟩ boundaryTrade 1 (1/100) 300000).1.shouldClose
        = false
    ∧ (monitorTrade defaultMonitorConfig ⟨[], []⟩ boundaryTrade 1 (1/100) 300000).1.reason
        = none := by
  refine ⟨by decide, ?_, ?_⟩ <;>
    norm_num [monitorTrade, timeExpiredCond, trailingStopCond, profitTargetCond,
      lossLimitCond, breakEvenCond, pnlOf, dropFromHighOf, breakEvenPriceOf,
      monitorHighest, updatedHighestPrices, mapGet, mapHas, mapSet,
      defaultMonitorConfig, boundaryTrade, sampleIndicators]

/-- C6: the TrailingStopHit decision fires exactly when the position is
currently profitable (`pnl > 0`) and the drop from the observed high reaches
`trailingStopPercent` (given that the higher-priority time exit does not
fire); and in the spec's scenario — entry price 1.0, observed high 1.20,
trailing stop 1% — it fires exactly when the current price is ≤ 1.188, hence
not at 1.189. -/
theorem monitor_trailing_stop_characterization :
    (∀ (cfg : MonitorConfig) (ms : MonitorState) (trade : StoredTrade)
        (currentPrice gasCost : ℚ) (now : Int),
      timeExpiredCond cfg trade.entryTime now = false →
      (((monitorTrade cfg ms trade currentPrice gasCost now).1.reason
          = some CloseReason.trailingStop)
        ↔ (0 < pnlOf trade.entryPrice currentPrice
            ∧ cfg.trailingStopPercent ≤ dropFromHighOf
                (monitorHighest ms.highestPrices trade.tokenMint currentPrice)
                currentPrice)))
    ∧ (∀ (currentPrice gasCost : ℚ) (now : Int),
      timeExpiredCond defaultMonitorConfig 0 now = false →
      currentPrice ≤ 6/5 →
      (((monitorTrade defaultMonitorConfig ⟨[(7, 6/5)], []⟩ boundaryTrade
            currentPrice gasCost now).1.reason = some CloseReason.trailingStop)
        ↔ (1 < currentPrice ∧ currentPrice ≤ 1188/1000))) := by
  have general : ∀ (cfg : MonitorConfig) (ms : MonitorState) (trade : StoredTrade)
      (currentPrice gasCost : ℚ) (now : Int),
      timeExpiredCond cfg trade.entryTime now = false →
      (((monitorTrade cfg ms trade currentPrice gasCost now).1.reason
          = some CloseReason.trailingStop)
        ↔ (0 < pnlOf trade.entryPrice currentPrice
            ∧ cfg.trailingStopPercent ≤ dropFromHighOf
                (monitorHighest ms.highestPrices trade.tokenMint currentPrice)
                currentPrice)) := by
    intro cfg ms trade p g now h1
    have hts : trailingStopCond cfg trade.entryPrice
        (monitorHighest ms.highestPrices trade.tokenMint p) p = true
        ↔ (0 < pnlOf trade.entryPrice p
           ∧ cfg.trailingStopPercent ≤ dropFromHighOf
               (monitorHighest ms.highestPrices trade.tokenMint p) p) := by
      simp [trailingStopCond]
    rw [← hts]
    unfold monitorTrade
    cases h2 : trailingStopCond cfg trade.entryPrice
        (monitorHighest ms.highestPrices trade.tokenMint p) p
    · cases h3 : profitTargetCond cfg trade.entryPrice p <;>
        cases h4 : lossLimitCond cfg trade.entryPrice p <;>
        cases h5 : breakEvenCond trade.entryPrice g trade.solIn p <;>
        simp [h1, h2, h3, h4, h5]
    · simp [h1, h2]
  refine ⟨general, ?_⟩
  intro p g now h1 hp
  have hhas : mapHas [((7 : Token), (6 : ℚ)/5)] 7 = true := by decide
  have hget : mapGet [((7 : Token), (6 : ℚ)/5)] 7 = some (6/5) := by
    simp [mapGet, List.find?]
  have hhi : monitorHighest (MonitorState.mk [(7, 6/5)] []).highestPrices
      boundaryTrade.tokenMint p = 6/5 := by
    show monitorHighest [((7 : Token), (6 : ℚ)/5)] 7 p = 6/5
    unfold monitorHighest updatedHighestPrices
    rw [if_neg, hget]
    · rfl
    · rw [hhas, hget]
      simp only [Option.getD_some]
      rintro (h | h)
      · simp at h
      · exact absurd h (not_lt.mpr hp)
  have h1' : timeExpiredCond defaultMonitorConfig boundaryTrade.entryTime now = false := h1
  rw [general defaultMonitorConfig ⟨[(7, 6/5)], []⟩ boundaryTrade p g now h1', hhi]
  have hep : boundaryTrade.entryPrice = 1 := rfl
  have hts : defaultMonitorConfig.trailingStopPercent = 1/100 := rfl
  rw [hep, hts]
  unfold pnlOf dropFromHighOf
  rw [div_one, sub_pos, le_div_iff₀ (by norm_num : (0 : ℚ) < 6/5)]
  constructor
  · rintro ⟨ha, hb⟩
    exact ⟨ha, by linarith⟩
  · rintro ⟨ha, hb⟩
    exact ⟨ha, by linarith⟩

/-- C6 witness: at current price 1.1 (profitable, 8.3% below the 1.20 high)
the reported reason is the trailing stop. -/
theorem monitor_trailing_stop_characterization_witness :
    (monitorTrade defaultMonitorConfig ⟨[(7, 6/5)], []⟩ boundaryTrade (11/10) 0 0).1.reason
      = some CloseReason.trailingStop :=
  (monitor_trailing_stop_characterization.2 (11/10) 0 0 (by decide) (by norm_num)).mpr
    (by norm_num)

/-!
Three-tick trace exhibiting the highest-price reset: a profitable close
decision whose sell leg fails still triggers `cleanupTrade`, deleting the
`highestPrices` entry of a position that is STILL ACTIVE; the next tick then
re-registers a lower price as the "highest".
-/

/-- Sell environment whose metrics fetch returns null, so the close attempt
fails and the position stays active. -/
def sellEnvFailMetrics : SellEnv :=
  ⟨none, ⟨MarketCondition.neutral, 1/2⟩, Except.ok ⟨some 1, 1, some 1⟩, Except.ok (), 0⟩

/-- Tick environment: every token trades at price `p`, gas estimate 0.01,
sell legs fail on metrics. -/
def tickEnvAt (p : ℚ) (t : Int) : TickEnv :=
  ⟨fun _ => some p, fun _ => 1/100, fun _ => sellEnvFailMetrics, t⟩

/-- Start state: the 1-SOL position of `boundaryTrade` on token 7 is active,
no lock, fresh risk state, fresh monitor maps. -/
def bugInitState : SystemState :=
  ⟨⟨[(7, boundaryTrade)], [], initialRiskState 0⟩, ⟨[], []⟩⟩

/-- Tick 1 at price 1.005: no exit condition fires; the high is recorded. -/
def bugS1 : SystemState := monitorTick defaultMonitorConfig (tickEnvAt (201/200) 1000) bugInitState

/-- Tick 2 at price 1.02: the profit target fires, the sell fails, and
`cleanupTrade` runs anyway. -/
def bugS2 : SystemState := monitorTick defaultMonitorConfig (tickEnvAt (51/50) 2000) bugS1

/-- Tick 3 at price 1.00: the monitor re-registers 1.00 as the high. -/
def bugS3 : SystemState := monitorTick defaultMonitorConfig (tickEnvAt 1 3000) bugS2

/-- C3: evaluating the monitoring loop on the failing trace. After tick 1 the
recorded highest price of the still-active position is 1.005; tick 2 decides
to close, the sell leg fails (the position remains in the active set), yet
the highest-price entry is deleted; tick 3 then records 1.00 — lower than the
1.005 (and 1.02) previously observed — as the highest price of the SAME
still-active position. This refutes the non-decreasing-highest-price
invariant on ticks whose close attempt fails, and contradicts `cleanupTrade`'s
own doc comment ("for a closed trade"): it runs on a trade that did not
close. -/
theorem monitor_highest_price_reset_on_failed_close :
    mapGet bugS1.monitor.highestPrices 7 = some (201/200)
    ∧ mapHas bugS1.exec.activeTrades 7 = true
    ∧ mapHas bugS2.exec.activeTrades 7 = true
    ∧ mapGet bugS2.monitor.highestPrices 7 = none
    ∧ mapHas bugS3.exec.activeTrades 7 = true
    ∧ mapGet bugS3.monitor.highestPrices 7 = some 1
    ∧ (1 : ℚ) < 201/200 := by
  norm_num [bugS1, bugS2, bugS3, bugInitState, tickEnvAt, sellEnvFailMetrics,
    monitorTick, monitorTickOne, monitorTrade, timeExpiredCond, trailingStopCond,
    profitTargetCond, lossLimitCond, breakEvenCond, pnlOf, dropFromHighOf,
    breakEvenPriceOf, monitorHighest, updatedHighestPrices, cleanupTrade,
    executeSell, executeSellTry, mapGet, mapHas, mapSet, mapDelete,
    defaultMonitorConfig, boundaryTrade, sampleIndicators, initialRiskState,
    List.foldl, List.find?, List.filter, List.any]

/-- Deleting an absent key leaves the map unchanged. -/
theorem mapDelete_of_not_has {α : Type} (m : List (Token × α)) (k : Token)
    (h : mapHas m k = false) : mapDelete m k = m := by
  unfold mapDelete
  apply List.filter_eq_self.mpr
  intro e he
  unfold mapHas at h
  rw [List.any_eq_false] at h
  simpa using h e he

/-- Setting a previously absent key and then deleting it restores the map. -/
theorem mapDelete_mapSet_of_not_has {α : Type} (m : List (Token × α)) (k : Token) (v : α)
    (h : mapHas m k = false) : mapDelete (mapSet m k v) k = m := by
  unfold mapSet
  rw [h]
  simp only [Bool.false_eq_true, if_false]
  unfold mapDelete
  rw [List.filter_append]
  have h1 : List.filter (fun e => e.1 != k) m = m := mapDelete_of_not_has m k h
  unfold mapDelete at h1
  rw [h1]
  simp

/-- Sell environment whose swap succeeds (1.1 SOL out) but whose repository
save throws (message id 5). -/
def sellEnvSaveFails : SellEnv :=
  ⟨some sampleMetrics, ⟨MarketCondition.neutral, 1/2⟩,
   Except.ok ⟨some (11/10), 11/10, some 2⟩, Except.error 5, 4000⟩

/-- Executor state with the `boundaryTrade` position active on token 7. -/
def sellInitExecState : ExecutorState :=
  ⟨[(7, boundaryTrade)], [], initialRiskState 0⟩

/-- C7 counterexample: when the trade record cannot be saved, the close IS
rolled back in memory — the call returns a failure, the position is still in
the active set, and the risk ledger is untouched — refuting the claim that
the position is still removed and the realized P&L still recorded. -/
theorem sell_persistence_failure_counterexample :
    (executeSell sellEnvSaveFails sellInitExecState 7 (some CloseReason.profitTarget)).1
      = SellReturn.failure (SellError.persistenceError 5)
    ∧ mapHas (executeSell sellEnvSaveFails sellInitExecState 7
        (some CloseReason.profitTarget)).2.activeTrades 7 = true
    ∧ (executeSell sellEnvSaveFails sellInitExecState 7
        (some CloseReason.profitTarget)).2.risk = initialRiskState 0 :=
  ⟨rfl, rfl, rfl⟩

/-- C7 (amended): a persistence failure during `executeSell` aborts the
close instead of completing it: the failure is caught and returned (not
thrown) as `{success: false}`, and the in-memory state is left exactly as it
was — the position remains in the active set and the RiskLedger is NOT
updated — so the monitoring loop will retry the close on a later tick. -/
theorem sell_persistence_failure_keeps_position_open (env : SellEnv) (st : ExecutorState)
    (tok : Token) (er : Option CloseReason) (e : Nat) (trade : StoredTrade) (r : OrderResult)
    (hm : mapGet st.activeTrades tok = some trade)
    (hmet : env.metrics.isSome = true)
    (ho : env.order = Except.ok r)
    (hs : env.saveResult = Except.error e) :
    executeSell env st tok er = (SellReturn.failure (SellError.persistenceError e), st) := by
  obtain ⟨m, hm2⟩ := Option.isSome_iff_exists.mp hmet
  unfold executeSell executeSellTry
  rw [hm, hm2, ho, hs]

/-- C7 witness: the amended theorem applied to the concrete failing save. -/
theorem sell_persistence_failure_keeps_position_open_witness :
    executeSell sellEnvSaveFails sellInitExecState 7 (some CloseReason.lossLimit)
      = (SellReturn.failure (SellError.persistenceError 5), sellInitExecState) :=
  sell_persistence_failure_keeps_position_open sellEnvSaveFails sellInitExecState 7
    (some CloseReason.lossLimit) 5 boundaryTrade ⟨some (11/10), 11/10, some 2⟩
    rfl rfl rfl rfl

/-- Buy environment whose snapshot fetch throws on every attempt; everything
else would succeed. -/
def buyEnvSnapshotFails : BuyEnv :=
  ⟨alwaysFailingAttempts, ⟨MarketCondition.neutral, 1/2⟩, sampleIndicators, true, 10,
   fun _ => AttemptOutcome.success ⟨some 1, 1, some 1⟩, 0⟩

/-- Well-formed buy parameters for token 7, amount 1 SOL. -/
def wellFormedParams : BuyParams := ⟨some 7, some 1, some 1, some 1, some 1⟩

/-- Executor state with no trades, no locks, fresh risk state. -/
def emptyExecState : ExecutorState := ⟨[], [], initialRiskState 0⟩

/-- C2 counterexample: when the snapshot fetch fails on all retry attempts,
`executeBuy` (the lifecycle manager's `enter`) propagates the failure by
THROWING (its `catch` rethrows at line 165): the external-call failure
escapes `enter` as an exception instead of being returned as a typed result,
refuting the claim that only the malformed-input case surfaces by throwing. -/
theorem buy_snapshot_failure_is_thrown :
    executeBuy defaultExecConfig defaultRiskConfig buyEnvSnapshotFails emptyExecState
      wellFormedParams
      = (Except.error (BuyError.snapshotUnavailable (some 2)), emptyExecState) :=
  rfl

/-- C2 (amended): `enter` (`executeBuy`) surfaces EVERY failure by throwing —
the snapshot-exhaustion case shown here included, not just validation errors —
while `exit` (`executeSell`) never throws: its result is always a returned
`{success: ...}` value, with the entry state preserved on every failure. -/
theorem external_failures_buy_throws_sell_returns :
    (∀ (cfg : ExecConfig) (rcfg : RiskConfig) (env : BuyEnv) (st : ExecutorState)
        (tok sym strat er : Nat) (amt : ℚ) (err : Option Nat),
      validateInputParams ⟨some tok, some sym, some amt, some strat, some er⟩ = true →
      mapHas st.executionLock tok = false →
      mapHas st.activeTrades tok = false →
      st.activeTrades.length < cfg.maxConcurrentTrades →
      (runRetry env.metricsAttempts cfg.retryAttempts).outcome = Except.error err →
      executeBuy cfg rcfg env st ⟨some tok, some sym, some amt, some strat, some er⟩
        = (Except.error (BuyError.snapshotUnavailable err), st))
    ∧ (∀ (env : SellEnv) (st : ExecutorState) (tok : Token) (er : Option CloseReason),
      (∃ e, (executeSell env st tok er).1 = SellReturn.failure e
            ∧ (executeSell env st tok er).2 = st)
      ∨ (∃ t st', executeSell env st tok er = (SellReturn.success t, st'))) := by
  constructor
  · intro cfg rcfg env st tok sym strat er amt err hv hl hd hc hr
    unfold executeBuy
    rw [hv]
    simp only [Bool.true_eq_false, if_false]
    rw [hl]
    simp only [Bool.false_eq_true, if_false]
    unfold executeBuyTry
    rw [hd]
    simp only [Bool.false_eq_true, if_false]
    rw [if_neg (Nat.not_le.mpr hc), hr]
    simp only
    rw [mapDelete_mapSet_of_not_has st.executionLock tok true hl]
  · intro env st tok er
    cases h : executeSellTry env st tok er with
    | ok v =>
      right
      exact ⟨v.1, v.2, by unfold executeSell; rw [h]⟩
    | error e =>
      left
      exact ⟨e, by unfold executeSell; rw [h], by unfold executeSell; rw [h]⟩

/-- C2 witness: the amended theorem at the concrete snapshot-exhaustion run
and at the concrete failed-save sell. -/
theorem external_failures_buy_throws_sell_returns_witness :
    (executeBuy defaultExecConfig defaultRiskConfig buyEnvSnapshotFails emptyExecState
        ⟨some 7, some 1, some 1, some 1, some 1⟩
      = (Except.error (BuyError.snapshotUnavailable (some 2)), emptyExecState))
    ∧ ((∃ e, (executeSell sellEnvSaveFails sellInitExecState 7 none).1
              = SellReturn.failure e
            ∧ (executeSell sellEnvSaveFails sellInitExecState 7 none).2
              = sellInitExecState)
      ∨ (∃ t st', executeSell sellEnvSaveFails sellInitExecState 7 none
              = (SellReturn.success t, st'))) :=
  ⟨external_failures_buy_throws_sell_returns.1 defaultExecConfig defaultRiskConfig
      buyEnvSnapshotFails emptyExecState 7 1 1 1 1 (some 2) rfl rfl rfl (by decide) rfl,
   external_failures_buy_throws_sell_returns.2 sellEnvSaveFails sellInitExecState 7 none⟩

/-- Risk state after a 0.3-SOL loss was realized at t = 1000 (the default
`maxDailyLoss` is 0.2): the rolling sum is −0.3 and the window anchor is the
construction time 0. -/
def breachedRiskState : RiskState := closePosition (initialRiskState 0) 9 (-(3/10)) 1000

/-- Buy environment in which every external collaborator succeeds, at time
`t`. -/
def buyEnvAllGood (t : Int) : BuyEnv :=
  ⟨fun _ => AttemptOutcome.success sampleMetrics, ⟨MarketCondition.neutral, 1/2⟩,
   sampleIndicators, true, 10, fun _ => AttemptOutcome.success ⟨some 1, 1, some 1⟩, t⟩

/-- Well-formed buy parameters for token 7, amount 0.5 SOL. -/
def halfParams : BuyParams := ⟨some 7, some 1, some (1/2), some 1, some 1⟩

/-- C4 counterexample: after the daily-loss breach (rolling sum −0.3 <
−0.2), an `enter` attempted 90000000 ms later — more than 24h past the last
reset — is STILL rejected for the daily-loss reason: `validateTrade` takes no
clock and never performs the lazy reset, so advancing time past the rolling
window does not make the instrument enterable again. -/
theorem daily_loss_no_reset_on_validate :
    breachedRiskState.dailyStats.totalPnL = -(3/10)
    ∧ breachedRiskState.dailyStats.lastReset = 0
    ∧ (24 * 60 * 60 * 1000 : Int) < 90000000 - breachedRiskState.dailyStats.lastReset
    ∧ (validateTrade defaultRiskConfig breachedRiskState true 7 (1/2) sampleMetrics).isValid
        = false
    ∧ (validateTrade defaultRiskConfig breachedRiskState true 7 (1/2) sampleMetrics).reasons
        = [RiskReason.dailyLossLimit]
    ∧ (executeBuy defaultExecConfig defaultRiskConfig (buyEnvAllGood 90000000)
         ⟨[], [], breachedRiskState⟩ halfParams).1
        = Except.error (BuyError.riskRejection [RiskReason.dailyLossLimit]) := by
  refine ⟨?_, rfl, by decide, ?_, ?_, ?_⟩ <;>
    norm_num [breachedRiskState, closePosition, updateDailyStats, initialRiskState,
      validateTrade, defaultRiskConfig, sampleMetrics, mapHas, mapDelete, executeBuy,
      executeBuyTry, validateInputParams, defaultExecConfig, buyEnvAllGood, halfParams,
      runRetry, runRetryGo, alwaysFailingAttempts, mapGet, mapSet,
      validateEntryConditions, calculatePositionSize, sampleIndicators,
      mapDelete_mapSet_of_not_has]

/-- C4 (amended): the rolling 24h sum is lazily reset only when
`updateDailyStats` runs, i.e. on the first CLOSE after the window has
elapsed — that close then folds its own P&L into a fresh sum anchored at its
own time — whereas `enter`'s daily-loss check is a pure read: the daily-loss
rejection depends only on the stored sum, with no time input, so the
rejection persists until the next close resets the window. -/
theorem daily_loss_lazy_reset_on_close_only :
    (∀ (st : RiskState) (tok : Token) (pnl : ℚ) (now : Int),
      (24 * 60 * 60 * 1000 : Int) < now - st.dailyStats.lastReset →
      (closePosition st tok pnl now).dailyStats.totalPnL = pnl
      ∧ (closePosition st tok pnl now).dailyStats.lastReset = now)
    ∧ (∀ (cfg : RiskConfig) (st : RiskState) (hb : Bool) (tok : Token) (amt : ℚ)
        (m : TokenMetrics),
      RiskReason.dailyLossLimit ∈ (validateTrade cfg st hb tok amt m).reasons
        ↔ st.dailyStats.totalPnL < -cfg.maxDailyLoss) := by
  constructor
  · intro st tok pnl now h
    unfold closePosition updateDailyStats
    rw [if_pos h]
    exact ⟨zero_add pnl, rfl⟩
  · intro cfg st hb tok amt m
    unfold validateTrade
    split_ifs <;> simp_all

/-- C4 witness: the amended theorem at the breached state — a winning close
at t = 90000000 resets the window and leaves the sum at its own +0.1, and the
daily-loss reason is present exactly because −0.3 < −0.2. -/
theorem daily_loss_lazy_reset_on_close_only_witness :
    ((closePosition breachedRiskState 8 (1/10) 90000000).dailyStats.totalPnL = 1/10
      ∧ (closePosition breachedRiskState 8 (1/10) 90000000).dailyStats.lastReset = 90000000)
    ∧ RiskReason.dailyLossLimit
        ∈ (validateTrade defaultRiskConfig breachedRiskState true 7 (1/2)
            sampleMetrics).reasons :=
  ⟨daily_loss_lazy_reset_on_close_only.1 breachedRiskState 8 (1/10) 90000000 (by decide),
   (daily_loss_lazy_reset_on_close_only.2 defaultRiskConfig breachedRiskState true 7 (1/2)
      sampleMetrics).mpr
    (by norm_num [breachedRiskState, closePosition, updateDailyStats, initialRiskState,
        defaultRiskConfig])⟩

/-- C9: for every interleaving of two concurrent `executeBuy` calls on the
same instrument from a clean start with succeeding externals, if both calls
have completed then exactly one of them succeeded and the other failed with
the lock-conflict error or the duplicate-position error; and on the fully
serialized schedule — the first call completing before the second starts —
the loser gets the duplicate-position error. -/
theorem two_concurrent_buys_exactly_one_winner :
    (∀ (sched : List Bool) (ra rb : MiniOutcome),
      (runSchedule true sched initTwoCall).phA = BuyPhase.done ra →
      (runSchedule true sched initTwoCall).phB = BuyPhase.done rb →
      ((ra = MiniOutcome.success
          ∧ (rb = MiniOutcome.lockConflict ∨ rb = MiniOutcome.duplicate))
        ∨ (rb = MiniOutcome.success
          ∧ (ra = MiniOutcome.lockConflict ∨ ra = MiniOutcome.duplicate))))
    ∧ runSchedule true [false, false, true] initTwoCall
        = ⟨⟨false, true⟩, BuyPhase.done MiniOutcome.success,
           BuyPhase.done MiniOutcome.duplicate⟩ := by
  constructor
  · intro sched ra rb hA hB
    have h := runSchedule_reachable sched initTwoCall (by decide)
    generalize hgen : runSchedule true sched initTwoCall = c at hA hB h
    fin_cases h <;> simp_all
  · decide

/-- C9 witness: on the schedule A-B-A both calls complete; A succeeded and B
got the lock conflict. -/
theorem two_concurrent_buys_exactly_one_winner_witness :
    (MiniOutcome.success = MiniOutcome.success
      ∧ (MiniOutcome.lockConflict = MiniOutcome.lockConflict
         ∨ MiniOutcome.lockConflict = MiniOutcome.duplicate))
    ∨ (MiniOutcome.lockConflict = MiniOutcome.success
      ∧ (MiniOutcome.success = MiniOutcome.lockConflict
         ∨ MiniOutcome.success = MiniOutcome.duplicate)) :=
  two_concurrent_buys_exactly_one_winner.1 [false, true, false] MiniOutcome.success
    MiniOutcome.lockConflict (by decide) (by decide)

/-- C10: an `executeBuy` call that fails before acquiring the execution lock
— malformed input, or a lock already held by an in-flight call — leaves the
whole executor state (the `executionLock` map, the `activeTrades` map and the
risk state) exactly unchanged; in particular the in-flight holder's lock
entry is not deleted, because those throws happen before the `try` block, so
the guaranteed-release `finally` does not run. -/
theorem buy_early_failure_frame (cfg : ExecConfig) (rcfg : RiskConfig) (env : BuyEnv)
    (st : ExecutorState) (p : BuyParams) :
    (validateInputParams p = false →
      executeBuy cfg rcfg env st p = (Except.error BuyError.validationError, st))
    ∧ (∀ tok, p.tokenMint = some tok → validateInputParams p = true →
      mapHas st.executionLock tok = true →
      executeBuy cfg rcfg env st p = (Except.error BuyError.lockConflict, st)) := by
  obtain ⟨tm, ts, am, sg, er⟩ := p
  constructor
  · intro hv
    cases tm <;> cases ts <;> cases am <;> cases sg <;> cases er <;>
      simp_all [executeBuy]
  · intro tok htm hv hl
    cases ts with
    | none => simp [validateInputParams] at hv
    | some s =>
      cases am with
      | none => simp [validateInputParams] at hv
      | some a =>
        cases sg with
        | none => simp [validateInputParams] at hv
        | some g =>
          cases er with
          | none => simp [validateInputParams] at hv
          | some r =>
            cases htm
            simp [executeBuy, hv, hl]

/-- Executor state in which another call currently holds the lock on token 7. -/
def lockedExecState : ExecutorState := ⟨[], [(7, true)], initialRiskState 0⟩

/-- C10 witness: a malformed call and a lock-conflicting call against a state
whose lock on token 7 is held both fail and return that state unchanged, the
holder's lock entry included. -/
theorem buy_early_failure_frame_witness :
    executeBuy defaultExecConfig defaultRiskConfig (buyEnvAllGood 0) lockedExecState
        ⟨none, none, none, none, none⟩
      = (Except.error BuyError.validationError, lockedExecState)
    ∧ executeBuy defaultExecConfig defaultRiskConfig (buyEnvAllGood 0) lockedExecState
        wellFormedParams
      = (Except.error BuyError.lockConflict, lockedExecState) :=
  ⟨(buy_early_failure_frame defaultExecConfig defaultRiskConfig (buyEnvAllGood 0)
      lockedExecState ⟨none, none, none, none, none⟩).1 rfl,
   (buy_early_failure_frame defaultExecConfig defaultRiskConfig (buyEnvAllGood 0)
      lockedExecState wellFormedParams).2 7 rfl rfl rfl⟩
